import Mathlib

/-!
Shallow embedding of the message-hub diagnostic scripts
(`scripts/inspect_messageparts.py`, `scripts/view_db.py`) and proofs about
the DLR reconciliation report they implement.

Modelling conventions:
* SQLite rows become Lean structures; a database is the pair of row lists.
* `TEXT` timestamps are modelled as `Int` (only their ordering is used by
  `ORDER BY CreatedAt`).
* A SQL `SELECT ... ORDER BY k` is modelled as `filter` + `mergeSort`;
  `GROUP BY Status` keeps first-occurrence order of the distinct statuses
  (SQLite leaves the group order unspecified; no claim depends on it).
* `json.loads` is external library code: it is modelled as an arbitrary
  parse oracle `String → Except String ChannelDoc`, so theorems hold for
  every possible parser behaviour, success or raised exception.
* Each `print(...)` contributes one string (embedded `\n` kept); Python
  float formatting `{:.1f}` is modelled over `ℚ` by rounding to one
  decimal digit.
* The `try/except` of the script is modelled by threading explicit
  failure oracles: `connectErr` (does `sqlite3.connect` raise?) and
  `queryErr k` (does the k-th `cursor.execute` raise, and with what
  message?).  `RunResult` records the printed lines, how many queries
  completed, and whether the connection was opened and closed.
-/

namespace MessageHub

/-- One row of the `Messages` table, with the columns the script reads
(`Id, Recipient, Status, MessageParts, ProviderMessageId, ChannelData`)
plus `CreatedAt`, which `ORDER BY CreatedAt DESC` consults. -/
structure MessageRow where
  Id : Int
  Recipient : String
  Status : String
  MessageParts : Int
  ProviderMessageId : String
  ChannelData : Option String
  CreatedAt : Int
deriving DecidableEq

/-- One row of the `MessageParts` table, with the columns of the script's
second query. -/
structure MessagePartRow where
  Id : Int
  MessageId : Int
  PartNumber : Int
  TotalParts : Int
  ProviderMessageId : String
  Status : String
  DeliveredAt : Option String
  DeliveryStatus : Option String
  ErrorCode : Option String
deriving DecidableEq

/-- The data store seen by `inspect_messageparts.py`: the two tables it
queries. -/
structure DB where
  messages : List MessageRow
  messageParts : List MessagePartRow
deriving DecidableEq

/-- `SELECT ... FROM Messages WHERE MessageParts > 1 ORDER BY CreatedAt
DESC LIMIT 1` (lines 14-21): filter, sort descending by creation
timestamp, take the head. -/
def selectLatestMultipart (db : DB) : Option MessageRow :=
  ((db.messages.filter (fun m => decide (1 < m.MessageParts))).insertionSort
    (fun a b => b.CreatedAt ≤ a.CreatedAt)).head?

/-- The rows produced by `FROM MessageParts mp INNER JOIN Messages m ON
mp.MessageId = m.Id` (line 47): each part row appears once per message
row whose `Id` matches its `MessageId`. -/
def joinRows (db : DB) : List MessagePartRow :=
  db.messageParts.flatMap (fun p =>
    (db.messages.filter (fun m => p.MessageId == m.Id)).map (fun _ => p))

/-- The part-details query (lines 43-52): join, `WHERE mp.MessageId = ?`,
`ORDER BY mp.PartNumber`. -/
def fetchParts (db : DB) (i : Int) : List MessagePartRow :=
  ((joinRows db).filter (fun p => p.MessageId == i)).insertionSort
    (fun a b => a.PartNumber ≤ b.PartNumber)

/-- `FROM MessageParts WHERE MessageId = ?` with no join — the row set
underlying both the `GROUP BY` query (lines 66-71) and the
`COUNT(*)/SUM` query (lines 78-83). -/
def partsOf (db : DB) (i : Int) : List MessagePartRow :=
  db.messageParts.filter (fun p => p.MessageId == i)

/-- `SELECT Status, COUNT(*) ... GROUP BY Status` (lines 66-71): one
`(status, count)` pair per distinct status, in first-occurrence order. -/
def statusCounts (parts : List MessagePartRow) : List (String × Nat) :=
  (parts.map (fun p => p.Status)).dedup.map
    (fun s => (s, (parts.filter (fun p => p.Status == s)).length))

/-- `SUM(CASE WHEN Status = 'Delivered' THEN 1 ELSE 0 END)` (line 80). -/
def deliveredCount (parts : List MessagePartRow) : Nat :=
  (parts.filter (fun p => p.Status == "Delivered")).length

/-- `success_rate = (delivered / total) * 100` (line 87), over `ℚ`. -/
def successRate (delivered total : Nat) : ℚ :=
  ((delivered : ℚ) / (total : ℚ)) * 100

/-- Round-to-nearest on rationals (executable form; agrees with
Mathlib's `round`, see `roundHalfUp_eq_round`).  Python's float
formatting rounds to nearest, so away from exact ties this models
`:.1f` faithfully. -/
def roundHalfUp (q : ℚ) : Int :=
  Rat.floor (q + 1 / 2)

/-- Python `:.1f` rendering of a non-negative rate: round to one
decimal digit and print `whole.tenths`. -/
def fmtPct (q : ℚ) : String :=
  let n : Int := roundHalfUp (q * 10)
  toString (n / 10) ++ "." ++ toString (n % 10)

/-- The rounded one-decimal value shown by `:.1f`, kept as a rational
for stating numeric facts about the display. -/
def fmt1 (q : ℚ) : ℚ :=
  ((roundHalfUp (q * 10) : Int) : ℚ) / 10

/-- Line 88: the success-rate summary line. -/
def rateSummaryLine (d t : Nat) : String :=
  "\n🎯 DLR Success Rate: " ++ toString d ++ "/" ++ toString t ++
    " (" ++ fmtPct (successRate d t) ++ "%)"

/-- Line 91: printed when `success_rate == 100`. -/
def perfectLine : String :=
  "✅ PERFECT: All SMS parts received delivery receipts!"

/-- Line 93: printed otherwise, carrying `total - delivered`. -/
def pendingLine (n : Nat) : String :=
  "⚠️  PARTIAL: " ++ toString n ++ " parts still pending"

/-- Lines 85-93: the DLR success summary block.  Note the `if total > 0`
guard — when `total = 0` nothing at all is printed. -/
def summaryLines (d t : Nat) : List String :=
  if 0 < t then
    rateSummaryLine d t ::
      (if successRate d t = 100 then [perfectLine] else [pendingLine (t - d)])
  else []

/-- The fields the script extracts from the parsed channel-data JSON
document via `data.get('SmppMessageIds', [])` and
`data.get('ChannelType', 'Unknown')`; `none` models an absent key.
(Value `repr` quoting of the id list is elided.) -/
structure ChannelDoc where
  SmppMessageIds : Option (List String)
  ChannelType : Option String

/-- Lines 32-38: the channel-data block.  `if channel_data:` skips both
`NULL` and the empty string; `json.loads` plus the two `data.get` calls
sit inside `try`, and the bare `except:` turns any raised exception into
the `(unparseable)` placeholder line. -/
def channelLines (parse : String → Except String ChannelDoc)
    (cd : Option String) : List String :=
  match cd with
  | none => []
  | some s =>
    if s = "" then []
    else
      match parse s with
      | Except.ok d =>
          ["All Provider IDs: " ++ toString (d.SmppMessageIds.getD []),
           "Channel Type: " ++ d.ChannelType.getD "Unknown"]
      | Except.error _ => ["Channel Data: (unparseable)"]

/-- Lines 25-38: the message-summary block printed when the selector
returned a row. -/
def msgSummaryLines (parse : String → Except String ChannelDoc)
    (m : MessageRow) : List String :=
  ["Message ID: " ++ toString m.Id,
   "Recipient: " ++ m.Recipient,
   "Status: " ++ m.Status,
   "Parts Count: " ++ toString m.MessageParts,
   "Primary Provider ID: " ++ m.ProviderMessageId] ++
    channelLines parse m.ChannelData

/-- Python `f"{s:>{w}}"`: right-justify in a field of width `w`. -/
def rjust (w : Nat) (s : String) : String :=
  String.mk (List.replicate (w - s.length) ' ') ++ s

/-- `"-" * n` (lines 56, and `view_db.py`). -/
def dashLine (n : Nat) : String :=
  String.mk (List.replicate n '-')

/-- Line 55: the fixed-width table header. -/
def tableHeaderLine : String :=
  rjust 4 "Part" ++ " | " ++ rjust 12 "Provider ID" ++ " | " ++
    rjust 12 "Status" ++ " | " ++ rjust 20 "Delivered At" ++ " | " ++
    rjust 12 "DLR Status"

/-- Lines 58-61: one table row.  `delivered_at[:19] if delivered_at else
"Not delivered"` treats `NULL` and `""` alike; `dlr_status or "N/A"`
likewise. -/
def partLine (p : MessagePartRow) : String :=
  rjust 4 (toString p.PartNumber) ++ " | " ++
    rjust 12 p.ProviderMessageId ++ " | " ++
    rjust 12 p.Status ++ " | " ++
    rjust 20 (match p.DeliveredAt with
      | some d => if d = "" then "Not delivered" else d.take 19
      | none => "Not delivered") ++ " | " ++
    rjust 12 (match p.DeliveryStatus with
      | some s => if s = "" then "N/A" else s
      | none => "N/A")

/-- Lines 54-61: the parts table, printed only `if parts:`. -/
def partsBlock (parts : List MessagePartRow) : List String :=
  match parts with
  | [] => []
  | _ => [tableHeaderLine, dashLine 80] ++ parts.map partLine

/-- Lines 74-75: one line per `GROUP BY` row. -/
def statusCountLine (sc : String × Nat) : String :=
  "  " ++ sc.1 ++ ": " ++ toString sc.2 ++ " parts"

/-- Line 11 header. -/
def header1 : String := "=== Latest Multi-Part Message Analysis ==="
/-- Line 40 header (leading blank line kept in the string). -/
def header2 : String := "\n=== MessageParts Details ==="
/-- Line 63 header. -/
def header3 : String := "\n=== DLR Processing Success Summary ==="

/-- Line 97: the `except` handler's output. -/
def errLine (e : String) : String := "❌ Error: " ++ e

/-- `msg_id if message else 0` (lines 50, 71, 83): the id handed to the
three follow-up queries. -/
def qid (db : DB) : Int :=
  match selectLatestMultipart db with
  | some m => m.Id
  | none => 0

/-- Lines 23-38: the `if message:` block — summary lines when the
selector returned a row, nothing otherwise. -/
def msgBlock (db : DB) (parse : String → Except String ChannelDoc) :
    List String :=
  match selectLatestMultipart db with
  | some m => msgSummaryLines parse m
  | none => []

/-- Lines 74-75: the per-status count lines of the run. -/
def statusLines (db : DB) : List String :=
  (statusCounts (partsOf db (qid db))).map statusCountLine

/-- Lines 85-93: the success-summary lines of the run. -/
def sumLines (db : DB) : List String :=
  summaryLines (deliveredCount (partsOf db (qid db)))
    (partsOf db (qid db)).length

/-- Everything printed before the part-details query executes (line 43):
header, optional message summary, second header. -/
def stage1 (db : DB) (parse : String → Except String ChannelDoc) :
    List String :=
  [header1] ++ msgBlock db parse ++ [header2]

/-- Everything printed before the `GROUP BY` query executes (line 66). -/
def stage2 (db : DB) (parse : String → Except String ChannelDoc) :
    List String :=
  stage1 db parse ++ partsBlock (fetchParts db (qid db)) ++ [header3]

/-- Everything printed before the `COUNT/SUM` query executes (line 78). -/
def stage3 (db : DB) (parse : String → Except String ChannelDoc) :
    List String :=
  stage2 db parse ++ statusLines db

/-- The complete report of a run in which every query succeeded. -/
def fullOutput (db : DB) (parse : String → Except String ChannelDoc) :
    List String :=
  stage3 db parse ++ sumLines db

/-- Observable outcome of one invocation of the script: printed lines,
number of `cursor.execute` calls that completed, and whether the
connection was opened / explicitly closed. -/
structure RunResult where
  output : List String
  queriesRun : Nat
  opened : Bool
  closed : Bool
deriving DecidableEq

/-- The whole script (lines 7-98).  `connectErr` models
`sqlite3.connect` raising; `queryErr k` models the k-th
`cursor.execute` raising with the given message.  The body follows the
source order exactly: each stage's prints happen before the next query,
a raised exception jumps to the `except` handler (which prints the error
line), and `conn.close()` (line 95) runs only when every query
succeeded. -/
def runInspect (db : DB) (parse : String → Except String ChannelDoc)
    (connectErr : Option String) (queryErr : Nat → Option String) :
    RunResult :=
  match connectErr with
  | some e => ⟨[errLine e], 0, false, false⟩
  | none =>
    match queryErr 0 with
    | some e => ⟨[header1] ++ [errLine e], 0, true, false⟩
    | none =>
      match queryErr 1 with
      | some e => ⟨stage1 db parse ++ [errLine e], 1, true, false⟩
      | none =>
        match queryErr 2 with
        | some e => ⟨stage2 db parse ++ [errLine e], 2, true, false⟩
        | none =>
          match queryErr 3 with
          | some e => ⟨stage3 db parse ++ [errLine e], 3, true, false⟩
          | none => ⟨fullOutput db parse, 4, true, true⟩

/-- A failure-free oracle: no query raises. -/
def noFail : Nat → Option String := fun _ => none

/-- A parse oracle that always raises — any such oracle may stand in for
`json.loads` on malformed input. -/
def parse0 : String → Except String ChannelDoc :=
  fun _ => Except.error "malformed"

/-- The empty data store. -/
def emptyDB : DB := ⟨[], []⟩

/-- A failure oracle under which the part-details query (index 1)
raises and everything else succeeds. -/
def failQ1 : Nat → Option String :=
  fun n => if n = 1 then some "disk I/O error" else none

/-- Output already printed when the query of index `n` executes: the
point at which a failure of that query freezes the report. -/
def stageOutput (db : DB) (parse : String → Except String ChannelDoc) :
    Nat → List String
  | 0 => [header1]
  | 1 => stage1 db parse
  | 2 => stage2 db parse
  | _ => stage3 db parse

/-- The part of the complete report that query index `n` and its
successors would still have contributed. -/
def stageRest (db : DB) (parse : String → Except String ChannelDoc) :
    Nat → List String
  | 0 => msgBlock db parse ++
      ([header2] ++ (partsBlock (fetchParts db (qid db)) ++
        ([header3] ++ (statusLines db ++ sumLines db))))
  | 1 => partsBlock (fetchParts db (qid db)) ++
      ([header3] ++ (statusLines db ++ sumLines db))
  | 2 => statusLines db ++ sumLines db
  | _ => sumLines db

/-! ### `view_db.py` and the ambient process environment -/

/-- The database content `view_db.py` consults: the table names of
`sqlite_master`, the `SmsMessages` column names from `PRAGMA
table_info`, and the stringified rows of `SELECT * FROM SmsMessages
ORDER BY CreatedAt DESC` (`str(val)` applied, `repr` quoting of the
column-name list elided). -/
structure ViewDB where
  tables : List String
  smsColumns : List String
  smsRows : List (List String)

/-- Python `f"{s:<{w}}"` / `f"{s:{w}}"`: left-justify in width `w`. -/
def ljust (w : Nat) (s : String) : String :=
  s ++ String.mk (List.replicate (w - s.length) ' ')

/-- The output of `view_db.py` (lines 11-48) on a readable database. -/
def viewDbOutput (v : ViewDB) : List String :=
  ["=== Tables in database ==="] ++ v.tables.map (fun t => "- " ++ t) ++
    ["\n=== SmsMessages Table Content ===",
     "Columns: " ++ toString v.smsColumns] ++
    (match v.smsRows with
     | [] => ["No data found in SmsMessages table."]
     | rows =>
       ["\nFound " ++ toString rows.length ++ " records:", dashLine 120,
        String.intercalate " | " (v.smsColumns.map (ljust 15)),
        dashLine 120] ++
         rows.map (fun r => String.intercalate " | " (r.map (ljust 15))))

/-- The ambient process state a script could in principle observe:
command-line arguments, environment variables, a clock and a randomness
seed.  Neither script reads any of these (they import only `sqlite3`,
`json`, `os`), so the embeddings below take an `Environ` and ignore
it. -/
structure Environ where
  argv : List String
  envVars : List (String × String)
  clock : Nat
  randomSeed : Nat

/-- One invocation of `inspect_messageparts.py` in ambient environment
`ε` (success path: the db file opens and all queries succeed). -/
def inspectScriptRun (db : DB) (parse : String → Except String ChannelDoc)
    (_ε : Environ) : List String :=
  (runInspect db parse none noFail).output

/-- One invocation of `view_db.py` in ambient environment `ε`. -/
def viewDbScriptRun (v : ViewDB) (_ε : Environ) : List String :=
  viewDbOutput v

/-! ### Concrete fixtures used by witnesses and counterexamples -/

/-- A multipart message (3 declared parts, created at time 10). -/
def msgA : MessageRow := ⟨1, "+4915111", "Sent", 3, "prA", none, 10⟩
/-- A multipart message created earlier (time 5). -/
def msgB : MessageRow := ⟨2, "+4915222", "Sent", 2, "prB", none, 5⟩
/-- A single-part message, the newest of all (time 99). -/
def msgC : MessageRow := ⟨3, "+4915333", "Delivered", 1, "prC", none, 99⟩

/-- A store whose newest message is single-part: the selector must skip
it and pick `msgA`. -/
def db₁ : DB := ⟨[msgB, msgA, msgC], []⟩

/-- Part 1 of message 1, delivered. -/
def partP : MessagePartRow :=
  ⟨11, 1, 1, 2, "sm1", "Delivered", some "2025-01-01 10:00:00.123456",
    some "DELIVRD", none⟩
/-- Part 2 of message 1, still pending. -/
def partQ : MessagePartRow :=
  ⟨12, 1, 2, 2, "sm2", "Pending", none, none, none⟩
/-- The message owning `partP` and `partQ`. -/
def msgD : MessageRow := ⟨1, "+4915444", "Sent", 2, "sm0", none, 50⟩

/-- A store holding one two-part message whose part rows are stored out
of sequence order. -/
def db₂ : DB := ⟨[msgD], [partQ, partP]⟩

/-- A store holding one multipart message and no part rows (its parts
were never persisted). -/
def db₄ : DB := ⟨[msgD], []⟩

/-- The spec's scenario M2: three parts with statuses
`[Delivered, Pending, Delivered]`. -/
def scenarioParts : List MessagePartRow :=
  [⟨21, 2, 1, 3, "sa", "Delivered", some "2025-01-01 10:00:00", some "DELIVRD", none⟩,
   ⟨22, 2, 2, 3, "sb", "Pending", none, none, none⟩,
   ⟨23, 2, 3, 3, "sc", "Delivered", some "2025-01-01 10:00:02", some "DELIVRD", none⟩]

/-! ### Helper lemmas -/

/-- The executable rounding used by the display model agrees with
Mathlib's `round`. -/
lemma roundHalfUp_eq_round (q : ℚ) : roundHalfUp q = round q := by
  rw [round_eq, roundHalfUp, Rat.floor_def', Rat.floor_def]

/-- `insertionSort` returns the empty list exactly on the empty list. -/
lemma insertionSort_eq_nil {α : Type} (r : α → α → Prop) [DecidableRel r]
    (l : List α) : l.insertionSort r = [] ↔ l = [] := by
  constructor
  · intro h
    have hp := List.perm_insertionSort r l
    rw [h] at hp
    exact hp.nil_eq.symm
  · intro h
    subst h
    simp

/-- The selector returns no row exactly when no stored message has more
than one declared part. -/
lemma selectLatest_none_iff (db : DB) :
    selectLatestMultipart db = none ↔
      ∀ m ∈ db.messages, ¬ 1 < m.MessageParts := by
  unfold selectLatestMultipart
  rw [List.head?_eq_none_iff, insertionSort_eq_nil, List.filter_eq_nil_iff]
  simp

/-- The descending-timestamp order used by the selector is total and
transitive (packaged for `sorted_insertionSort`). -/
lemma sorted_selectOrder (l : List MessageRow) :
    List.Sorted (fun a b : MessageRow => b.CreatedAt ≤ a.CreatedAt)
      (l.insertionSort (fun a b => b.CreatedAt ≤ a.CreatedAt)) :=
  @List.sorted_insertionSort MessageRow
    (fun a b : MessageRow => b.CreatedAt ≤ a.CreatedAt) _
    ⟨fun a b => le_total b.CreatedAt a.CreatedAt⟩
    ⟨fun _ _ _ hab hbc => le_trans hbc hab⟩ l

/-- Any row the selector returns is a stored multipart message whose
creation timestamp is maximal among stored multipart messages. -/
lemma selectLatest_mem_max (db : DB) (m : MessageRow)
    (h : selectLatestMultipart db = some m) :
    m ∈ db.messages ∧ 1 < m.MessageParts ∧
      ∀ m' ∈ db.messages, 1 < m'.MessageParts →
        m'.CreatedAt ≤ m.CreatedAt := by
  unfold selectLatestMultipart at h
  obtain ⟨t, ht⟩ : ∃ t,
      (db.messages.filter (fun m => decide (1 < m.MessageParts))).insertionSort
        (fun a b => b.CreatedAt ≤ a.CreatedAt) = m :: t := by
    cases hms : (db.messages.filter
        (fun m => decide (1 < m.MessageParts))).insertionSort
        (fun a b => b.CreatedAt ≤ a.CreatedAt) with
    | nil => rw [hms] at h; simp at h
    | cons a t =>
      rw [hms] at h
      simp only [List.head?_cons, Option.some.injEq] at h
      subst h
      exact ⟨t, rfl⟩
  have hmem : m ∈ db.messages.filter (fun m => decide (1 < m.MessageParts)) := by
    have hin : m ∈ (db.messages.filter
        (fun m => decide (1 < m.MessageParts))).insertionSort
        (fun a b => b.CreatedAt ≤ a.CreatedAt) := by
      rw [ht]; exact List.mem_cons_self m t
    exact (List.mem_insertionSort _).mp hin
  have hm := List.mem_filter.mp hmem
  refine ⟨hm.1, by simpa using hm.2, ?_⟩
  intro m' hm' hp'
  have hsorted := sorted_selectOrder
    (db.messages.filter (fun m => decide (1 < m.MessageParts)))
  rw [ht] at hsorted
  have hmem' : m' ∈ m :: t := by
    rw [← ht]
    exact (List.mem_insertionSort _).mpr
      (List.mem_filter.mpr ⟨hm', by simpa using hp'⟩)
  rcases List.mem_cons.mp hmem' with h1 | h1
  · rw [h1]
  · exact (List.sorted_cons.mp hsorted).1 m' h1

/-- If timestamps are injective on multipart messages, the maximal
multipart message is exactly the row the selector returns. -/
lemma selectLatest_unique (db : DB) (m : MessageRow)
    (hinj : ∀ a ∈ db.messages, ∀ b ∈ db.messages,
      1 < a.MessageParts → 1 < b.MessageParts →
      a.CreatedAt = b.CreatedAt → a = b)
    (hm : m ∈ db.messages) (hmp : 1 < m.MessageParts)
    (hmax : ∀ m' ∈ db.messages, 1 < m'.MessageParts →
      m'.CreatedAt ≤ m.CreatedAt) :
    selectLatestMultipart db = some m := by
  cases hsel : selectLatestMultipart db with
  | none =>
    rw [selectLatest_none_iff] at hsel
    exact absurd hmp (hsel m hm)
  | some m0 =>
    obtain ⟨hm0, hp0, hmax0⟩ := selectLatest_mem_max db m0 hsel
    have h1 : m.CreatedAt ≤ m0.CreatedAt := hmax0 m hm hmp
    have h2 : m0.CreatedAt ≤ m.CreatedAt := hmax m0 hm0 hp0
    rw [hinj m0 hm0 m hm hp0 hmp (le_antisymm h2 h1)]

/-- Join block of one part row whose owner matches the queried id: with
exactly one matching message row, the block contributes the part once. -/
lemma block_filter_true (ms : List MessageRow) (i : Int) (p : MessagePartRow)
    (hp : p.MessageId = i)
    (h : (ms.filter (fun m => m.Id == i)).length = 1) :
    ((ms.filter (fun m => p.MessageId == m.Id)).map
        (fun _ => p)).filter (fun x => x.MessageId == i) = [p] := by
  have hpred : ms.filter (fun m => p.MessageId == m.Id)
      = ms.filter (fun m => m.Id == i) := by
    apply List.filter_congr
    intro m _
    rw [hp, Bool.eq_iff_iff]
    simp only [beq_iff_eq]
    exact eq_comm
  rw [hpred]
  obtain ⟨a, ha⟩ := List.length_eq_one.mp h
  rw [ha]
  simp [hp]

/-- Join block of a part row whose owner does not match the queried id:
the `WHERE` filter removes it entirely. -/
lemma block_filter_false (ms : List MessageRow) (i : Int) (p : MessagePartRow)
    (hp : ¬ p.MessageId = i) :
    ((ms.filter (fun m => p.MessageId == m.Id)).map
        (fun _ => p)).filter (fun x => x.MessageId == i) = [] := by
  rw [List.filter_eq_nil_iff]
  intro x hx
  rcases List.mem_map.mp hx with ⟨m, _, hxp⟩
  rw [← hxp]
  simp [hp]

/-- Join followed by the `WHERE` filter equals the plain filter of the
parts table, whenever exactly one message row bears the queried id. -/
lemma joinRows_filter_aux (ms : List MessageRow) (i : Int)
    (h : (ms.filter (fun m => m.Id == i)).length = 1) :
    ∀ ps : List MessagePartRow,
      ((ps.flatMap (fun p => (ms.filter (fun m => p.MessageId == m.Id)).map
          (fun _ => p))).filter (fun p => p.MessageId == i))
        = ps.filter (fun p => p.MessageId == i)
  | [] => by simp
  | p :: ps => by
    rw [List.flatMap_cons, List.filter_append, joinRows_filter_aux ms i h ps,
      List.filter_cons]
    by_cases hp : p.MessageId = i
    · rw [block_filter_true ms i p hp h]
      simp [hp]
    · rw [block_filter_false ms i p hp]
      simp [hp]

/-- The part fetcher returns a permutation of exactly the part rows
owned by the queried message id. -/
lemma fetchParts_perm (db : DB) (i : Int)
    (h : (db.messages.filter (fun m => m.Id == i)).length = 1) :
    (fetchParts db i).Perm
      (db.messageParts.filter (fun p => p.MessageId == i)) := by
  unfold fetchParts joinRows
  rw [joinRows_filter_aux db.messages i h db.messageParts]
  exact List.perm_insertionSort _ _

/-- The part fetcher's result is sorted ascending by `PartNumber`. -/
lemma fetchParts_sorted (db : DB) (i : Int) :
    (fetchParts db i).Pairwise (fun a b => a.PartNumber ≤ b.PartNumber) := by
  unfold fetchParts
  exact @List.sorted_insertionSort MessagePartRow
    (fun a b => a.PartNumber ≤ b.PartNumber) _
    ⟨fun a b => le_total a.PartNumber b.PartNumber⟩
    ⟨fun _ _ _ hab hbc => le_trans hab hbc⟩
    ((joinRows db).filter (fun p => p.MessageId == i))

/-- An id owning no stored part fetches the empty sequence. -/
lemma fetchParts_nil (db : DB) (i : Int)
    (h : ∀ p ∈ db.messageParts, p.MessageId ≠ i) :
    fetchParts db i = [] := by
  unfold fetchParts
  have hnil : (joinRows db).filter (fun p => p.MessageId == i) = [] := by
    rw [List.filter_eq_nil_iff]
    intro p hp
    have hmem : p ∈ db.messageParts := by
      unfold joinRows at hp
      rcases List.mem_flatMap.mp hp with ⟨q, hq, hpq⟩
      rcases List.mem_map.mp hpq with ⟨m, _, hqp⟩
      rw [← hqp]
      exact hq
    simp [h p hmem]
  rw [hnil]
  simp

/-- Per-status counts sum to the total row count. -/
lemma statusCounts_sum (parts : List MessagePartRow) :
    ((statusCounts parts).map Prod.snd).sum = parts.length := by
  unfold statusCounts
  rw [List.map_map]
  have hmaps : ((parts.map (fun p => p.Status)).dedup.map
      (Prod.snd ∘ fun s => (s, (parts.filter (fun p => p.Status == s)).length)))
      = ((parts.map (fun p => p.Status)).dedup.map
          (fun s => (parts.map (fun p => p.Status)).count s)) := by
    apply List.map_congr_left
    intro s _
    simp only [Function.comp]
    rw [List.count_eq_countP, List.countP_map, List.countP_eq_length_filter]
    rfl
  rw [hmaps, List.sum_map_count_dedup_eq_length, List.length_map]

/-- For positive totals, the success rate is 100 exactly when every
part is delivered. -/
lemma successRate_eq_100_iff (d t : Nat) (h : 0 < t) :
    successRate d t = 100 ↔ d = t := by
  have ht : ((t : Nat) : ℚ) ≠ 0 := by
    exact_mod_cast Nat.pos_iff_ne_zero.mp h
  unfold successRate
  rw [div_mul_eq_mul_div, div_eq_iff ht]
  constructor
  · intro hh
    have hq : (d : ℚ) = (t : ℚ) := by linarith
    exact_mod_cast hq
  · intro hh
    rw [hh]
    ring

/-- The complete report splits at every query boundary into what was
already printed and what the remaining queries contribute. -/
lemma fullOutput_eq_stage (db : DB)
    (parse : String → Except String ChannelDoc) (n : Nat) (hn : n < 4) :
    fullOutput db parse = stageOutput db parse n ++ stageRest db parse n := by
  interval_cases n <;>
    simp [fullOutput, stage3, stage2, stage1, stageOutput, stageRest,
      List.append_assoc]

/-! ### Claims -/

/-- C1 (counterexample): on a store with no multipart message, the run
prints only the three section headers — no "no multi-part message
found" notice anywhere in the output — and still performs all four
queries (the three follow-up queries use fallback id 0), contradicting
the claim that a notice is printed and no further queries happen. -/
theorem C1_empty_store_counterexample :
    (runInspect emptyDB parse0 none noFail).output =
      [header1, header2, header3] ∧
    (runInspect emptyDB parse0 none noFail).queriesRun = 4 ∧
    "no multi-part message found" ∉
      (runInspect emptyDB parse0 none noFail).output := by
  refine ⟨by decide, by decide, by decide⟩

/-- C1 (amended): if no stored message has more than one declared part
(and no part row carries the fallback owner id 0), the run completes
normally with an empty result — exactly the three section headers, no
notice, all four queries performed, connection closed. -/
theorem C1_empty_store_behavior (db : DB)
    (parse : String → Except String ChannelDoc)
    (h1 : ∀ m ∈ db.messages, ¬ 1 < m.MessageParts)
    (h2 : ∀ p ∈ db.messageParts, p.MessageId ≠ 0) :
    runInspect db parse none noFail =
      ⟨[header1, header2, header3], 4, true, true⟩ := by
  have hsel : selectLatestMultipart db = none :=
    (selectLatest_none_iff db).2 h1
  have hqid : qid db = 0 := by simp [qid, hsel]
  have hfetch : fetchParts db 0 = [] := fetchParts_nil db 0 h2
  have hpartsOf : partsOf db 0 = [] := by
    rw [partsOf, List.filter_eq_nil_iff]
    intro p hp
    simp [h2 p hp]
  simp [runInspect, noFail, fullOutput, stage3, stage2, stage1, msgBlock,
    statusLines, sumLines, hsel, hqid, hfetch, hpartsOf, partsBlock,
    statusCounts, summaryLines]

/-- C1 (witness): the amended statement evaluated on the empty store. -/
theorem C1_empty_store_behavior_witness :
    runInspect emptyDB parse0 none noFail =
      ⟨[header1, header2, header3], 4, true, true⟩ :=
  C1_empty_store_behavior emptyDB parse0 (by decide) (by decide)

/-- C2 (counterexample): for the empty part sequence (total part count
0) the summary block prints nothing at all: no success-ratio value is
reported and no "partial" classification line appears, contradicting
the claim that the ratio 0.0 and classification "partial" are
reported. -/
theorem C2_zero_total_counterexample :
    summaryLines (deliveredCount []) ([] : List MessagePartRow).length
      = [] ∧
    pendingLine 0 ∉
      summaryLines (deliveredCount []) ([] : List MessagePartRow).length := by
  refine ⟨by decide, by decide⟩

/-- C2 (amended): when the total part count is 0, the `total > 0` guard
skips the success summary entirely — division by zero is avoided, and
neither a ratio nor any classification is printed. -/
theorem C2_zero_total_behavior (d : Nat) : summaryLines d 0 = [] := by
  simp [summaryLines]

/-- C3: the Record Selector returns no row exactly when no stored
message has declared part count > 1; any returned row is a stored
message with part count > 1 (so part count ≤ 1 is never selected)
whose creation timestamp is maximal among multipart messages; and when
creation timestamps are injective on multipart messages, the maximal
multipart message is exactly the row returned. -/
theorem C3_selector_latest_multipart (db : DB) :
    (selectLatestMultipart db = none ↔
      ∀ m ∈ db.messages, ¬ 1 < m.MessageParts) ∧
    (∀ m, selectLatestMultipart db = some m →
      m ∈ db.messages ∧ 1 < m.MessageParts ∧
        ∀ m' ∈ db.messages, 1 < m'.MessageParts →
          m'.CreatedAt ≤ m.CreatedAt) ∧
    ((∀ a ∈ db.messages, ∀ b ∈ db.messages,
        1 < a.MessageParts → 1 < b.MessageParts →
        a.CreatedAt = b.CreatedAt → a = b) →
      ∀ m ∈ db.messages, 1 < m.MessageParts →
        (∀ m' ∈ db.messages, 1 < m'.MessageParts →
          m'.CreatedAt ≤ m.CreatedAt) →
        selectLatestMultipart db = some m) :=
  ⟨selectLatest_none_iff db,
   fun m => selectLatest_mem_max db m,
   fun hinj m hm hp hmax => selectLatest_unique db m hinj hm hp hmax⟩

/-- C3 (witness): on `db₁` the selector picks `msgA` (3 parts, created
at 10), skipping the newer single-part `msgC`, and `msgB`'s timestamp
is indeed bounded by `msgA`'s. -/
theorem C3_selector_latest_multipart_witness :
    selectLatestMultipart db₁ = some msgA ∧
      msgB.CreatedAt ≤ msgA.CreatedAt :=
  ⟨(C3_selector_latest_multipart db₁).2.2 (by decide) msgA (by decide)
      (by decide) (by decide),
   ((C3_selector_latest_multipart db₁).2.1 msgA (by decide)).2.2 msgB
      (by decide) (by decide)⟩

/-- C4: for positive totals the ratio is 100 exactly when all parts are
delivered, in which case the "complete" line (`PERFECT`) is printed;
any other ratio yields the "partial" line carrying `total - delivered`;
and on the spec's scenario `[Delivered, Pending, Delivered]` the
aggregator yields delivered 2 of 3, displayed ratio `66.7`, and the
partial line reporting 1 non-delivered part. -/
theorem C4_ratio_classification (parts : List MessagePartRow)
    (h : 0 < parts.length) :
    (successRate (deliveredCount parts) parts.length = 100 ↔
      deliveredCount parts = parts.length) ∧
    (deliveredCount parts = parts.length →
      summaryLines (deliveredCount parts) parts.length =
        [rateSummaryLine (deliveredCount parts) parts.length,
         perfectLine]) ∧
    (deliveredCount parts ≠ parts.length →
      summaryLines (deliveredCount parts) parts.length =
        [rateSummaryLine (deliveredCount parts) parts.length,
         pendingLine (parts.length - deliveredCount parts)]) ∧
    (deliveredCount scenarioParts = 2 ∧ scenarioParts.length = 3 ∧
      fmtPct (successRate 2 3) = "66.7" ∧
      fmt1 (successRate 2 3) = 667 / 10 ∧
      summaryLines 2 3 = [rateSummaryLine 2 3, pendingLine 1]) := by
  have hiff := successRate_eq_100_iff (deliveredCount parts) parts.length h
  have h667 : roundHalfUp (successRate 2 3 * 10) = 667 := by
    rw [roundHalfUp_eq_round, round_eq, Int.floor_eq_iff]
    refine ⟨?_, ?_⟩ <;> · unfold successRate; norm_num
  have hne23 : successRate 2 3 ≠ 100 := by
    intro hc
    have h23 := (successRate_eq_100_iff 2 3 (by norm_num)).1 hc
    omega
  refine ⟨hiff, ?_, ?_, by decide, by decide, ?_, ?_, ?_⟩
  · intro he
    simp [summaryLines, h, hiff.2 he]
  · intro hne
    have hx : successRate (deliveredCount parts) parts.length ≠ 100 :=
      fun hc => hne (hiff.1 hc)
    simp [summaryLines, h, hx]
  · simp only [fmtPct, h667]
    decide
  · rw [fmt1, h667]
    norm_num
  · simp [summaryLines, hne23]

/-- C4 (witness): the partial branch evaluated at delivered 2 of 3. -/
theorem C4_ratio_classification_witness :
    summaryLines (deliveredCount scenarioParts) scenarioParts.length =
      [rateSummaryLine (deliveredCount scenarioParts) scenarioParts.length,
       pendingLine 1] :=
  (C4_ratio_classification scenarioParts (by decide)).2.2.1 (by decide)

/-- C5: the Part Fetcher's result is always sorted ascending by part
sequence number; whenever the queried id names exactly one stored
Message (so the join keeps each part once), the result is a permutation
of precisely the part rows owned by that id, regardless of stored row
order; and an id owning no part rows fetches the empty sequence, not an
error. -/
theorem C5_fetcher_ordered_parts (db : DB) (i : Int) :
    (fetchParts db i).Pairwise (fun a b => a.PartNumber ≤ b.PartNumber) ∧
    ((db.messages.filter (fun m => m.Id == i)).length = 1 →
      (fetchParts db i).Perm
        (db.messageParts.filter (fun p => p.MessageId == i))) ∧
    ((∀ p ∈ db.messageParts, p.MessageId ≠ i) → fetchParts db i = []) :=
  ⟨fetchParts_sorted db i, fetchParts_perm db i, fetchParts_nil db i⟩

/-- C5 (witness): on `db₂` (part rows stored in order 2, 1) the fetch
for id 1 is a permutation of the two owned rows, and fetching the
unused id 99 yields the empty sequence. -/
theorem C5_fetcher_ordered_parts_witness :
    (fetchParts db₂ 1).Perm
      (db₂.messageParts.filter (fun p => p.MessageId == 1)) ∧
    fetchParts db₂ 99 = [] :=
  ⟨(C5_fetcher_ordered_parts db₂ 1).2.1 (by decide),
   (C5_fetcher_ordered_parts db₂ 99).2.2 (by decide)⟩

/-- C6: for any distribution of status strings over the parts of one
message, the per-status counts of the `GROUP BY` aggregation sum
exactly to the total part count. -/
theorem C6_status_counts_sum_to_total (parts : List MessagePartRow) :
    ((statusCounts parts).map Prod.snd).sum = parts.length :=
  statusCounts_sum parts

/-- C7: channel-metadata handling never propagates an error: for every
parse oracle (however `json.loads` behaves) the block yields plain
output lines — nothing for an absent or empty document, the
`(unparseable)` placeholder in place of the channel type and
provider-id list whenever parsing raises, and the two metadata lines on
success. -/
theorem C7_metadata_never_raises
    (parse : String → Except String ChannelDoc) :
    channelLines parse none = [] ∧
    (∀ s e, s ≠ "" → parse s = Except.error e →
      channelLines parse (some s) = ["Channel Data: (unparseable)"]) ∧
    (∀ s d, s ≠ "" → parse s = Except.ok d →
      channelLines parse (some s) =
        ["All Provider IDs: " ++ toString (d.SmppMessageIds.getD []),
         "Channel Type: " ++ d.ChannelType.getD "Unknown"]) := by
  refine ⟨rfl, ?_, ?_⟩
  · intro s e hs he
    simp [channelLines, hs, he]
  · intro s d hs hd
    simp [channelLines, hs, hd]

/-- C7 (witness): a failing parse on a concrete document yields exactly
the placeholder line. -/
theorem C7_metadata_never_raises_witness :
    channelLines parse0 (some "not-json") =
      ["Channel Data: (unparseable)"] :=
  (C7_metadata_never_raises parse0).2.1 "not-json" "malformed"
    (by decide) rfl

/-- C8 (counterexample): when the part-details query raises after the
connection was opened, the run ends with the connection still open —
the script has no `finally`, so `conn.close()` is skipped on the error
path, contradicting the claim that every path closes the connection. -/
theorem C8_close_counterexample :
    (runInspect emptyDB parse0 none failQ1).opened = true ∧
    (runInspect emptyDB parse0 none failQ1).closed = false := by
  refine ⟨by decide, by decide⟩

/-- C8 (amended): the connection is closed exactly on the fully
successful path — it is opened whenever `connect` succeeds, but any
query failure afterwards skips `conn.close()`. -/
theorem C8_close_only_on_success (db : DB)
    (parse : String → Except String ChannelDoc)
    (ce : Option String) (qf : Nat → Option String) :
    ((runInspect db parse ce qf).closed = true ↔
      ce = none ∧ qf 0 = none ∧ qf 1 = none ∧ qf 2 = none ∧
        qf 3 = none) ∧
    ((runInspect db parse ce qf).opened = true ↔ ce = none) := by
  unfold runInspect
  cases ce with
  | some e => simp
  | none =>
    cases h0 : qf 0 with
    | some e => simp [h0]
    | none =>
      cases h1 : qf 1 with
      | some e => simp [h0, h1]
      | none =>
        cases h2 : qf 2 with
        | some e => simp [h0, h1, h2]
        | none =>
          cases h3 : qf 3 with
          | some e => simp [h0, h1, h2, h3]
          | none => simp [h0, h1, h2, h3]

/-- C9 (counterexample): on `db₄`, failing the part-details query
leaves a half-finished report — the first header, the full message
summary and the second header — followed by the error line: the output
is neither the complete report nor the bare error, contradicting the
claim that a failing run produces a complete report or none. -/
theorem C9_partial_output_counterexample :
    (runInspect db₄ parse0 none failQ1).output =
      [header1, "Message ID: 1", "Recipient: +4915444", "Status: Sent",
       "Parts Count: 2", "Primary Provider ID: sm0", header2,
       errLine "disk I/O error"] ∧
    (runInspect db₄ parse0 none failQ1).output ≠
      (runInspect db₄ parse0 none noFail).output ∧
    (runInspect db₄ parse0 none failQ1).output ≠
      [errLine "disk I/O error"] := by
  refine ⟨by decide, by decide, by decide⟩

/-- C9 (amended): a failing run does surface the underlying cause — if
`connect` raises, the output is exactly the error line; if the n-th
query is the first to raise, the output is everything printed up to
that query followed by the error line, i.e. a prefix of the complete
report with the error line appended (partial output is NOT suppressed). -/
theorem C9_error_surfaced_after_partial_output (db : DB)
    (parse : String → Except String ChannelDoc)
    (qf : Nat → Option String) (e : String) :
    ((runInspect db parse (some e) qf).output = [errLine e]) ∧
    (∀ n, n < 4 → qf n = some e → (∀ k, k < n → qf k = none) →
      (runInspect db parse none qf).output =
        stageOutput db parse n ++ [errLine e] ∧
      (runInspect db parse none noFail).output =
        stageOutput db parse n ++ stageRest db parse n) := by
  constructor
  · rfl
  · intro n hn hf hk
    have hfull : (runInspect db parse none noFail).output
        = fullOutput db parse := rfl
    refine ⟨?_, by rw [hfull]; exact fullOutput_eq_stage db parse n hn⟩
    interval_cases n
    · simp [runInspect, hf, stageOutput]
    · have h0 := hk 0 (by omega)
      simp [runInspect, h0, hf, stageOutput]
    · have h0 := hk 0 (by omega)
      have h1 := hk 1 (by omega)
      simp [runInspect, h0, h1, hf, stageOutput]
    · have h0 := hk 0 (by omega)
      have h1 := hk 1 (by omega)
      have h2 := hk 2 (by omega)
      simp [runInspect, h0, h1, h2, hf, stageOutput]

/-- C9 (witness): the amended statement evaluated on `db₂` with the
part-details query failing. -/
theorem C9_error_surfaced_witness :
    (runInspect db₂ parse0 none failQ1).output =
      stageOutput db₂ parse0 1 ++ [errLine "disk I/O error"] ∧
    (runInspect db₂ parse0 none noFail).output =
      stageOutput db₂ parse0 1 ++ stageRest db₂ parse0 1 :=
  (C9_error_surfaced_after_partial_output db₂ parse0 failQ1
      "disk I/O error").2 1 (by omega) (by decide)
    (fun k hk => by
      have hk0 : k = 0 := by omega
      rw [hk0]
      rfl)

/-- C10: for a fixed store, the report of either script is a function
of the stored rows alone — two runs under arbitrarily different
command-line arguments, environment variables, clock readings or
randomness seeds produce identical output. -/
theorem C10_report_deterministic (db : DB)
    (parse : String → Except String ChannelDoc) (v : ViewDB)
    (ε₁ ε₂ : Environ) :
    inspectScriptRun db parse ε₁ = inspectScriptRun db parse ε₂ ∧
    viewDbScriptRun v ε₁ = viewDbScriptRun v ε₂ :=
  ⟨rfl, rfl⟩

end MessageHub
